import Mathlib

/-!
Shallow embedding of the raster layer-compositing and temporal-interpolation
engine of the sahel-smartland dashboard
(`src/lib/geospatialUtils.ts`, `src/components/MapVisualization.tsx`).

Conventions of the embedding:
* JavaScript numbers are modelled as exact rationals `ℚ`; where a computation
  can produce `Infinity`, `-Infinity` or `NaN` (the temporal-query resolution,
  which spreads possibly-empty arrays into `Math.max` / `Math.min`), values
  live in the extended type `JNum` whose arithmetic follows the IEEE rules
  JavaScript uses for these operations (signed zero is not distinguished; it
  is irrelevant to every computation modelled here).
* `Math.random()` is modelled by an explicit stream `rands : ℕ → ℚ` of draws,
  one per call site; functions of the source that never call `Math.random`
  take the stream and ignore it, so that determinism across calls can be
  stated uniformly.
* JavaScript array indexing that can be out of range returns `Option`
  (`none` models `undefined`).
-/

/-- A JavaScript number as needed by the temporal-query computation: a finite
rational, one of the two infinities, or `NaN`. -/
inductive JNum where
  | fin (q : ℚ)
  | posInf
  | negInf
  | nan
deriving DecidableEq, Repr

/-- IEEE subtraction on `JNum`, as JavaScript's binary `-`. -/
def jsub : JNum → JNum → JNum
  | JNum.nan, _ => JNum.nan
  | _, JNum.nan => JNum.nan
  | JNum.fin a, JNum.fin b => JNum.fin (a - b)
  | JNum.fin _, JNum.posInf => JNum.negInf
  | JNum.fin _, JNum.negInf => JNum.posInf
  | JNum.posInf, JNum.posInf => JNum.nan
  | JNum.posInf, _ => JNum.posInf
  | JNum.negInf, JNum.negInf => JNum.nan
  | JNum.negInf, _ => JNum.negInf

/-- IEEE division on `JNum`, as JavaScript's `/` (signed zero ignored). -/
def jdiv : JNum → JNum → JNum
  | JNum.nan, _ => JNum.nan
  | _, JNum.nan => JNum.nan
  | JNum.fin a, JNum.fin b =>
      if b = 0 then
        if a = 0 then JNum.nan else if 0 < a then JNum.posInf else JNum.negInf
      else JNum.fin (a / b)
  | JNum.fin _, JNum.posInf => JNum.fin 0
  | JNum.fin _, JNum.negInf => JNum.fin 0
  | JNum.posInf, JNum.fin b => if 0 ≤ b then JNum.posInf else JNum.negInf
  | JNum.negInf, JNum.fin b => if 0 ≤ b then JNum.negInf else JNum.posInf
  | JNum.posInf, _ => JNum.nan
  | JNum.negInf, _ => JNum.nan

/-- JavaScript's `x > 0` comparison on `JNum` (`NaN > 0` is false). -/
def jgt0 : JNum → Bool
  | JNum.fin q => decide (0 < q)
  | JNum.posInf => true
  | JNum.negInf => false
  | JNum.nan => false

/-- `Math.max(...l)` for a spread list of finite numbers: `-Infinity` on the
empty list, otherwise the greatest element. -/
def jmaxList : List ℚ → JNum
  | [] => JNum.negInf
  | x :: xs => JNum.fin (xs.foldl max x)

/-- `Math.min(...l)` for a spread list of finite numbers: `Infinity` on the
empty list, otherwise the least element. -/
def jminList : List ℚ → JNum
  | [] => JNum.posInf
  | x :: xs => JNum.fin (xs.foldl min x)

/-- The `{ prevYear, nextYear, progress }` record computed by the `useMemo`
block of `MapVisualization.tsx` (lines 74–88). -/
structure TemporalQuery where
  prevYear : JNum
  nextYear : JNum
  progress : JNum
deriving DecidableEq, Repr

/-- `getAvailableYears` of `geospatialUtils.ts`: 2010–2023 for the standard
datasets, `[2010, 2015, 2020]` for population. -/
def getAvailableYears (dataType : String) : List ℚ :=
  let standardYears := (List.range 14).map (fun i => (2010 : ℚ) + i)
  if dataType = "population" then [2010, 2015, 2020] else standardYears

/-- The temporal-query resolution of `MapVisualization.tsx` (the `useMemo`
computing `prevYear` / `nextYear` / `progress`), with JavaScript's behaviour
of `Math.max` / `Math.min` on empty spreads preserved. -/
def resolveTemporalQuery (year : ℚ) (availableYears : List ℚ) : TemporalQuery :=
  if year ∈ availableYears then
    ⟨JNum.fin year, JNum.fin year, JNum.fin 0⟩
  else
    let prevYear := jmaxList (availableYears.filter (fun y => y ≤ year))
    let nextYear := jminList (availableYears.filter (fun y => year ≤ y))
    let yearRange := jsub nextYear prevYear
    let progress :=
      if jgt0 yearRange then jdiv (jsub (JNum.fin year) prevYear) yearRange
      else JNum.fin 0
    ⟨prevYear, nextYear, progress⟩

lemma start_le_foldlMax : ∀ (xs : List ℚ) (x : ℚ), x ≤ xs.foldl max x := by
  intro xs
  induction xs with
  | nil => intro x; exact le_rfl
  | cons y ys ih =>
      intro x
      simp only [List.foldl_cons]
      exact le_trans (le_max_left x y) (ih (max x y))

lemma mem_le_foldlMax : ∀ (xs : List ℚ) (x y : ℚ), y ∈ x :: xs → y ≤ xs.foldl max x := by
  intro xs
  induction xs with
  | nil =>
      intro x y hy
      simp only [List.foldl_nil]
      rcases List.mem_singleton.mp hy with rfl
      exact le_rfl
  | cons z zs ih =>
      intro x y hy
      simp only [List.foldl_cons]
      rcases List.mem_cons.mp hy with rfl | hy'
      · exact le_trans (le_max_left y z) (ih (max y z) (max y z) (List.mem_cons_self _ _))
      · rcases List.mem_cons.mp hy' with rfl | hy''
        · exact le_trans (le_max_right x y) (ih (max x y) (max x y) (List.mem_cons_self _ _))
        · exact ih (max x z) y (List.mem_cons_of_mem _ hy'')

lemma foldlMax_mem : ∀ (xs : List ℚ) (x : ℚ), xs.foldl max x ∈ x :: xs := by
  intro xs
  induction xs with
  | nil => intro x; simp
  | cons y ys ih =>
      intro x
      simp only [List.foldl_cons]
      rcases max_choice x y with h | h <;> rw [h]
      · rcases List.mem_cons.mp (ih x) with h' | h'
        · rw [h']; exact List.mem_cons_self _ _
        · exact List.mem_cons_of_mem _ (List.mem_cons_of_mem _ h')
      · exact List.mem_cons_of_mem _ (ih y)

lemma start_le_foldlMin : ∀ (xs : List ℚ) (x : ℚ), xs.foldl min x ≤ x := by
  intro xs
  induction xs with
  | nil => intro x; exact le_rfl
  | cons y ys ih =>
      intro x
      simp only [List.foldl_cons]
      exact le_trans (ih (min x y)) (min_le_left x y)

lemma foldlMin_le_mem : ∀ (xs : List ℚ) (x y : ℚ), y ∈ x :: xs → xs.foldl min x ≤ y := by
  intro xs
  induction xs with
  | nil =>
      intro x y hy
      simp only [List.foldl_nil]
      rcases List.mem_singleton.mp hy with rfl
      exact le_rfl
  | cons z zs ih =>
      intro x y hy
      simp only [List.foldl_cons]
      rcases List.mem_cons.mp hy with rfl | hy'
      · exact le_trans (ih (min y z) (min y z) (List.mem_cons_self _ _)) (min_le_left y z)
      · rcases List.mem_cons.mp hy' with rfl | hy''
        · exact le_trans (ih (min x y) (min x y) (List.mem_cons_self _ _)) (min_le_right x y)
        · exact ih (min x z) y (List.mem_cons_of_mem _ hy'')

lemma foldlMin_mem : ∀ (xs : List ℚ) (x : ℚ), xs.foldl min x ∈ x :: xs := by
  intro xs
  induction xs with
  | nil => intro x; simp
  | cons y ys ih =>
      intro x
      simp only [List.foldl_cons]
      rcases min_choice x y with h | h <;> rw [h]
      · rcases List.mem_cons.mp (ih x) with h' | h'
        · rw [h']; exact List.mem_cons_self _ _
        · exact List.mem_cons_of_mem _ (List.mem_cons_of_mem _ h')
      · exact List.mem_cons_of_mem _ (ih y)

lemma jmaxList_eq_fin (l : List ℚ) (m : ℚ) (hm : m ∈ l) (hmax : ∀ y ∈ l, y ≤ m) :
    jmaxList l = JNum.fin m := by
  cases l with
  | nil => exact absurd hm (List.not_mem_nil m)
  | cons x xs =>
      simp only [jmaxList, JNum.fin.injEq]
      exact le_antisymm (hmax _ (foldlMax_mem xs x)) (mem_le_foldlMax xs x m hm)

lemma jminList_eq_fin (l : List ℚ) (m : ℚ) (hm : m ∈ l) (hmin : ∀ y ∈ l, m ≤ y) :
    jminList l = JNum.fin m := by
  cases l with
  | nil => exact absurd hm (List.not_mem_nil m)
  | cons x xs =>
      simp only [jminList, JNum.fin.injEq]
      exact le_antisymm (foldlMin_le_mem xs x m hm) (hmin _ (foldlMin_mem xs x))

/-- `interpolateData` of `geospatialUtils.ts`: if the two arrays differ in
length or are empty, return `endData`; otherwise per cell keep equal values
and resolve differing values by a per-cell `Math.random() < progress` draw
(the draw for cell `i` is `rands i`). -/
def interpolateData (rands : ℕ → ℚ) (startData endData : List ℚ)
    (progress : ℚ) : List ℚ :=
  if startData.length ≠ endData.length ∨ startData.length = 0 then endData
  else
    (List.range startData.length).map (fun index =>
      let startValue := startData.getD index 0
      let endValue := endData.getD index 0
      if startValue = endValue then startValue
      else if rands index < progress then endValue else startValue)

/-- A stream of `Math.random()` draws: every draw lies in `[0, 1)`. -/
def IsRandStream (rands : ℕ → ℚ) : Prop := ∀ i, 0 ≤ rands i ∧ rands i < 1

/-- The `landCoverColors` table of `geospatialUtils.ts` (key 0 is the
designated no-data entry). -/
def landCoverColors : List (ℚ × String) :=
  [(7, "#1a9850"), (8, "#91cf60"), (9, "#d9ef8b"), (10, "#fee08b"),
   (11, "#66c2a5"), (12, "#fc8d59"), (13, "#d73027"), (14, "#fdae61"),
   (15, "#f7f7f7"), (16, "#bababa"), (0, "#4d4d4d")]

/-- The land-cover branch of the per-cell colour choice in
`renderTIFFToCanvas`: `landCoverColors[value] || landCoverColors[0]` (every
colour string of the table is truthy, so `||` falls back exactly on a missing
key). -/
def landCoverCellColor (value : ℚ) : String :=
  (landCoverColors.lookup value).getD ((landCoverColors.lookup 0).getD "")

/-- The colours written to the pixel buffer by the land-cover branch of the
`renderTIFFToCanvas` loop, one per cell in order. -/
def renderLandCoverColors (data : List ℚ) : List String :=
  data.map landCoverCellColor

/-- `precipitationColorScale` of `geospatialUtils.ts`. -/
def precipitationColorScale : List String :=
  ["#f7fbff", "#deebf7", "#c6dbef", "#9ecae1", "#6baed6", "#4292c6",
   "#2171b5", "#08519c", "#08306b"]

/-- `vegetationProductivityScale` of `geospatialUtils.ts`. -/
def vegetationProductivityScale : List String :=
  ["#f7fcf5", "#e5f5e0", "#c7e9c0", "#a1d99b", "#74c476", "#41ab5d",
   "#238b45", "#006d2c", "#00441b"]

/-- `populationDensityScale` of `geospatialUtils.ts`. -/
def populationDensityScale : List String :=
  ["#ffffcc", "#ffeda0", "#fed976", "#feb24c", "#fd8d3c", "#fc4e2a",
   "#e31a1c", "#bd0026", "#800026"]

/-- JavaScript array indexing with an integer index: `undefined` (`none`)
outside the range. -/
def jsGetStr (l : List String) (i : ℤ) : Option String :=
  if 0 ≤ i then l.get? i.toNat else none

/-- The clamped normalisation `Math.max(0, Math.min(1, (value - min) /
(max - min || 1)))` shared by the three continuous colour mappings
(`vmin` / `vmax` are the source's `min` / `max` parameters). -/
def continuousNormalized (value vmin vmax : ℚ) : ℚ :=
  max 0 (min 1 ((value - vmin) / (if vmax - vmin = 0 then 1 else vmax - vmin)))

/-- The scale index `Math.floor(normalized * (scale.length - 1))` shared by
the three continuous colour mappings. -/
def scaleIndex (value vmin vmax : ℚ) (scaleLen : ℕ) : ℤ :=
  ⌊continuousNormalized value vmin vmax * ((scaleLen : ℚ) - 1)⌋

/-- `getPrecipitationColor` of `geospatialUtils.ts`. -/
def getPrecipitationColor (value vmin vmax : ℚ) : Option String :=
  jsGetStr precipitationColorScale
    (scaleIndex value vmin vmax precipitationColorScale.length)

/-- `getVegetationColor` of `geospatialUtils.ts` (65533 and non-positive
values yield the transparent colour). -/
def getVegetationColor (value vmin vmax : ℚ) : Option String :=
  if value = 65533 ∨ value ≤ 0 then some "#ffffff00"
  else jsGetStr vegetationProductivityScale
    (scaleIndex value vmin vmax vegetationProductivityScale.length)

/-- `getPopulationDensityColor` of `geospatialUtils.ts` (negative values
yield the transparent colour). -/
def getPopulationDensityColor (value vmin vmax : ℚ) : Option String :=
  if value < 0 then some "#ffffff00"
  else jsGetStr populationDensityScale
    (scaleIndex value vmin vmax populationDensityScale.length)

/-- JavaScript's `Math.round` (ties round toward positive infinity). -/
def jround (q : ℚ) : ℚ := ⌊q + 1 / 2⌋

/-- The keys of the `landCoverClasses` / `landCoverColors` tables
(`Object.keys` enumerates integer-like keys in ascending numeric order). -/
def landCoverClassKeys : List ℚ := [0, 7, 8, 9, 10, 11, 12, 13, 14, 15, 16]

/-- `calculateLandCoverStats` of `geospatialUtils.ts`: the histogram record,
viewed as the count stored under each key (keys outside the table read 0,
and values outside the table are silently dropped). -/
def calculateLandCoverStats (rands : ℕ → ℚ) (data : List ℚ) : ℚ → ℕ :=
  fun key => if key ∈ landCoverClassKeys then data.count key else 0

/-- The `{average, min, max, total}` summary record of the precipitation
statistics. -/
structure ContStats where
  average : ℚ
  min : ℚ
  max : ℚ
  total : ℚ
deriving DecidableEq, Repr

/-- `calculatePrecipitationStats` of `geospatialUtils.ts` (the `noDataValue`
parameter defaults to 0 as in the source). -/
def calculatePrecipitationStats (rands : ℕ → ℚ) (data : List ℚ)
    (noDataValue : ℚ := 0) : ContStats :=
  if data = [] then ⟨0, 0, 0, 0⟩
  else
    match data.filter (fun value => value ≠ noDataValue ∧ value > 0.1) with
    | [] => ⟨0, 0, 0, 0⟩
    | x :: xs =>
        let sum := (x :: xs).sum
        ⟨sum / ((x :: xs).length : ℚ), xs.foldl min x, xs.foldl max x, sum⟩

/-- The summary record of the vegetation (GPP) statistics. -/
structure VegStats where
  average : ℚ
  min : ℚ
  max : ℚ
  total : ℚ
  forestGPP : ℚ
  grasslandGPP : ℚ
  croplandGPP : ℚ
  barrenGPP : ℚ
deriving DecidableEq, Repr

/-- `calculateVegetationStats` of `geospatialUtils.ts`. -/
def calculateVegetationStats (rands : ℕ → ℚ) (data : List ℚ) : VegStats :=
  if data = [] then ⟨0, 0, 0, 0, 0, 0, 0, 0⟩
  else
    match data.filter (fun value => value ≠ 65533 ∧ value > 0 ∧ value < 3000) with
    | [] => ⟨0, 0, 0, 0, 0, 0, 0, 0⟩
    | x :: xs =>
        let sum := (x :: xs).sum
        let vmin := xs.foldl min x
        let vmax := xs.foldl max x
        ⟨sum / ((x :: xs).length : ℚ), vmin, vmax, sum,
         vmax * 0.9, vmax * 0.6, vmax * 0.7, vmin * 1.5⟩

/-- The summary record of the population statistics. -/
structure PopStats where
  totalPopulation : ℚ
  averageDensity : ℚ
  maxDensity : ℚ
  urbanPopulation : ℚ
  ruralPopulation : ℚ
  populationGrowthRate : ℚ
  populationUnder15 : ℚ
  populationOver65 : ℚ
  malePopulation : ℚ
  femalePopulation : ℚ
deriving DecidableEq, Repr

/-- The all-zero population record returned on the two fallback paths. -/
def zeroPopStats : PopStats := ⟨0, 0, 0, 0, 0, 0, 0, 0, 0, 0⟩

/-- The valid-data filter of `calculatePopulationStats`: the source keeps
`value > 0` (its comment: "Filter out NoData values (negative or zero)"). -/
def populationValidData (data : List ℚ) : List ℚ :=
  data.filter (fun value => value > 0)

/-- `calculatePopulationStats` of `geospatialUtils.ts`. -/
def calculatePopulationStats (rands : ℕ → ℚ) (data : List ℚ) : PopStats :=
  if data = [] then zeroPopStats
  else
    match h : populationValidData data with
    | [] => zeroPopStats
    | x :: xs =>
        let validData := x :: xs
        let sum := validData.sum
        let vmax := xs.foldl max x
        let totalPopulation := jround (sum * 0.1)
        let urbanDensityThreshold := vmax * 0.3
        let urbanPopulationTotal :=
          (validData.filter (fun val => val ≥ urbanDensityThreshold)).sum
        let urbanPopulation := jround (urbanPopulationTotal * 0.1)
        let ruralPopulation := totalPopulation - urbanPopulation
        let populationUnder15 := jround (totalPopulation * 0.44)
        let populationOver65 := jround (totalPopulation * 0.03)
        let femalePopulation := jround (totalPopulation * 0.51)
        let malePopulation := totalPopulation - femalePopulation
        ⟨totalPopulation, sum / (validData.length : ℚ), vmax,
         urbanPopulation, ruralPopulation, 3.1, populationUnder15,
         populationOver65, malePopulation, femalePopulation⟩

/-- The record returned by `calculateTransitionStats`. -/
structure TransStats where
  transitionIntensity : ℚ
  degradedArea : ℚ
  improvedArea : ℚ
  stableArea : ℚ
deriving DecidableEq, Repr

/-- `calculateTransitionStats` of `geospatialUtils.ts`: a placeholder built
from four fresh `Math.random()` draws; the `data` argument is unused. -/
def calculateTransitionStats (rands : ℕ → ℚ) (data : List ℚ) : TransStats :=
  ⟨rands 0 * 10, rands 1 * 1000, rands 2 * 500, rands 3 * 2000⟩

lemma interpolateData_of_ok (rands : ℕ → ℚ) (a b : List ℚ) (p : ℚ)
    (hlen : a.length = b.length) (hne : a.length ≠ 0) :
    interpolateData rands a b p = (List.range a.length).map (fun index =>
      let startValue := a.getD index 0
      let endValue := b.getD index 0
      if startValue = endValue then startValue
      else if rands index < p then endValue else startValue) := by
  unfold interpolateData
  rw [if_neg]
  push_neg
  exact ⟨hlen, hne⟩

lemma interpolateData_length_ok (rands : ℕ → ℚ) (a b : List ℚ) (p : ℚ)
    (hlen : a.length = b.length) (hne : a.length ≠ 0) :
    (interpolateData rands a b p).length = a.length := by
  rw [interpolateData_of_ok rands a b p hlen hne]
  simp

/-- C9: when the two cell arrays differ in length, or either is empty,
`interpolateData` returns the end (target) array unchanged for every progress
value. -/
theorem interpolateData_mismatch_returns_end (rands : ℕ → ℚ)
    (a b : List ℚ) (p : ℚ) (h : a.length ≠ b.length ∨ a = [] ∨ b = []) :
    interpolateData rands a b p = b := by
  unfold interpolateData
  rcases h with h | rfl | rfl
  · rw [if_pos (Or.inl h)]
  · rw [if_pos (Or.inr List.length_nil)]
  · by_cases hl : a.length = 0
    · rw [if_pos (Or.inr hl)]
    · rw [if_pos (Or.inl (by simpa using hl))]

/-- Witness for C9 at a concrete mismatched input. -/
theorem interpolateData_mismatch_returns_end_witness :
    (((1 : ℚ) :: []).length ≠ ([] : List ℚ).length
      ∨ ((1 : ℚ) :: []) = [] ∨ ([] : List ℚ) = [])
    ∧ interpolateData (fun _ => 0) [(1 : ℚ)] [] (1 / 2) = [] :=
  ⟨Or.inl (by decide),
   interpolateData_mismatch_returns_end (fun _ => 0) [(1 : ℚ)] [] (1 / 2)
     (Or.inl (by decide))⟩

/-- C7: for same-length non-empty arrays and any stream of `Math.random`
draws (each in `[0,1)`), interpolating at progress 1 returns exactly the end
array and at progress 0 exactly the start array. -/
theorem interpolateData_endpoints (rands : ℕ → ℚ) (a b : List ℚ)
    (hr : IsRandStream rands) (hlen : a.length = b.length) (hne : a ≠ []) :
    interpolateData rands a b 1 = b ∧ interpolateData rands a b 0 = a := by
  have hne' : a.length ≠ 0 := by simpa using fun h => hne (List.length_eq_zero.mp h)
  constructor
  · rw [interpolateData_of_ok rands a b 1 hlen hne']
    apply List.ext_getElem (by simpa using hlen)
    intro i h1 h2
    simp only [List.getElem_map, List.getElem_range]
    have hia : i < a.length := by simpa using h1
    have hib : i < b.length := hlen ▸ hia
    by_cases heq : a.getD i 0 = b.getD i 0
    · simp only [heq, if_pos]
      exact (List.getD_eq_getElem b 0 hib).symm ▸ rfl
    · rw [if_neg heq, if_pos (hr i).2]
      exact List.getD_eq_getElem b 0 hib
  · rw [interpolateData_of_ok rands a b 0 hlen hne']
    apply List.ext_getElem (by simp)
    intro i h1 h2
    simp only [List.getElem_map, List.getElem_range]
    have hia : i < a.length := by simpa using h1
    by_cases heq : a.getD i 0 = b.getD i 0
    · rw [if_pos heq]
      exact List.getD_eq_getElem a 0 hia
    · rw [if_neg heq, if_neg (not_lt.mpr (hr i).1)]
      exact List.getD_eq_getElem a 0 hia

/-- Witness for C7 at a concrete input. -/
theorem interpolateData_endpoints_witness :
    IsRandStream (fun _ => 1 / 2)
    ∧ interpolateData (fun _ => 1 / 2) [(1 : ℚ), 2] [3, 2] 1 = [3, 2]
    ∧ interpolateData (fun _ => 1 / 2) [(1 : ℚ), 2] [3, 2] 0 = [1, 2] := by
  have hr : IsRandStream (fun _ => (1 : ℚ) / 2) := fun i => by norm_num
  have h := interpolateData_endpoints (fun _ => 1 / 2) [(1 : ℚ), 2] [3, 2] hr
    (by decide) (by decide)
  exact ⟨hr, h.1, h.2⟩

/-- C8: a cell whose start and end values agree keeps that shared value for
every progress and every stream of draws, and interpolating an array with
itself is the identity at every progress. -/
theorem interpolateData_stable (rands : ℕ → ℚ) (a b : List ℚ) (p : ℚ)
    (hlen : a.length = b.length) (hne : a ≠ []) (i : ℕ) (hi : i < a.length)
    (heq : a.getD i 0 = b.getD i 0) :
    (interpolateData rands a b p).getD i 0 = a.getD i 0
    ∧ interpolateData rands a a p = a := by
  have hne' : a.length ≠ 0 := by simpa using fun h => hne (List.length_eq_zero.mp h)
  constructor
  · rw [interpolateData_of_ok rands a b p hlen hne']
    rw [List.getD_eq_getElem _ 0 (by simpa using hi)]
    simp only [List.getElem_map, List.getElem_range]
    rw [if_pos heq]
  · rw [interpolateData_of_ok rands a a p rfl hne']
    apply List.ext_getElem (by simp)
    intro j h1 h2
    simp only [List.getElem_map, List.getElem_range]
    rw [if_pos trivial]
    exact List.getD_eq_getElem a 0 h2

/-- Witness for C8 at the spec's concrete input `[7,7,9]`. -/
theorem interpolateData_stable_witness :
    ([(7 : ℚ), 7, 9].length = [(7 : ℚ), 7, 9].length
      ∧ [(7 : ℚ), 7, 9] ≠ [] ∧ (0 : ℕ) < [(7 : ℚ), 7, 9].length
      ∧ [(7 : ℚ), 7, 9].getD 0 0 = [(7 : ℚ), 7, 9].getD 0 0)
    ∧ (interpolateData (fun _ => 0) [(7 : ℚ), 7, 9] [(7 : ℚ), 7, 9] (1 / 2)).getD 0 0
        = [(7 : ℚ), 7, 9].getD 0 0
    ∧ interpolateData (fun _ => 0) [(7 : ℚ), 7, 9] [(7 : ℚ), 7, 9] (1 / 2)
        = [(7 : ℚ), 7, 9] := by
  have h := interpolateData_stable (fun _ => 0) [(7 : ℚ), 7, 9] [(7 : ℚ), 7, 9]
    (1 / 2) rfl (by decide) 0 (by decide) rfl
  exact ⟨⟨rfl, by decide, by decide, rfl⟩, h.1, h.2⟩

/-- C10: the population record satisfies both partition equations exactly on
every path: urban + rural = total and male + female = total. -/
theorem calculatePopulationStats_partitions (rands : ℕ → ℚ) (data : List ℚ) :
    (calculatePopulationStats rands data).urbanPopulation
      + (calculatePopulationStats rands data).ruralPopulation
      = (calculatePopulationStats rands data).totalPopulation
    ∧ (calculatePopulationStats rands data).malePopulation
      + (calculatePopulationStats rands data).femalePopulation
      = (calculatePopulationStats rands data).totalPopulation := by
  unfold calculatePopulationStats
  split
  · constructor <;> simp [zeroPopStats]
  · split
    · constructor <;> simp [zeroPopStats]
    · constructor <;> (dsimp only; ring)

lemma calculatePopulationStats_averageDensity (rands : ℕ → ℚ)
    (data : List ℚ) :
    (calculatePopulationStats rands data).averageDensity =
      (if data = [] ∨ populationValidData data = [] then 0
       else (populationValidData data).sum
          / ((populationValidData data).length : ℚ)) := by
  unfold calculatePopulationStats
  split
  · rename_i h
    rw [if_pos (Or.inl h)]
    simp [zeroPopStats]
  · rename_i hdata
    split
    · rename_i hmatch
      rw [if_pos (Or.inr hmatch)]
      simp [zeroPopStats]
    · rename_i x xs hmatch
      rw [if_neg (by push_neg; exact ⟨hdata, by rw [hmatch]; simp⟩)]
      rw [hmatch]

/-- Counterexample to C2: the cell value 0 is dropped by the population
valid-data filter (the source keeps only `value > 0`), so for `[0, 2]` the
average density is 2, not the value 1 an included zero would give. -/
theorem populationStats_zero_cell_dropped :
    (0 : ℚ) ∈ ([0, 2] : List ℚ)
    ∧ (0 : ℚ) ∉ populationValidData [0, 2]
    ∧ (calculatePopulationStats (fun _ => 0) [0, 2]).averageDensity = 2 := by
  refine ⟨by decide, by decide, ?_⟩
  rw [calculatePopulationStats_averageDensity]
  norm_num [populationValidData, List.filter]
  exact List.cons_ne_nil 0 [2]

/-- C2 as amended: `calculatePopulationStats` excludes exactly the cells with
value ≤ 0 — a cell is in the valid-data set iff it occurs in the input and is
strictly positive — and the average density is the sum of the kept cells over
their count (0 when nothing is kept). -/
theorem populationValidData_spec (rands : ℕ → ℚ) (data : List ℚ) (v : ℚ) :
    (v ∈ populationValidData data ↔ v ∈ data ∧ 0 < v)
    ∧ (calculatePopulationStats rands data).averageDensity =
        (if data = [] ∨ populationValidData data = [] then 0
         else (populationValidData data).sum
            / ((populationValidData data).length : ℚ)) := by
  constructor
  · simp [populationValidData, List.mem_filter]
  · exact calculatePopulationStats_averageDensity rands data

/-- Counterexample to C3: `calculateTransitionStats` is built from fresh
`Math.random` draws, so two calls (two draw streams) disagree on the same
input array. -/
theorem calculateTransitionStats_not_deterministic :
    calculateTransitionStats (fun _ => 0) []
      ≠ calculateTransitionStats (fun _ => 1 / 2) [] := by
  intro h
  have h' := congrArg TransStats.transitionIntensity h
  simp only [calculateTransitionStats] at h'
  norm_num at h'

/-- C3 as amended: the four data-driven statistics functions are
deterministic — their result does not depend on the `Math.random` stream, so
two calls on the same cell array agree — while `calculateTransitionStats`
does depend on the stream and two calls can disagree. -/
theorem statsFunctions_determinism (r1 r2 : ℕ → ℚ) (data : List ℚ)
    (noDataValue : ℚ) :
    calculateLandCoverStats r1 data = calculateLandCoverStats r2 data
    ∧ calculatePrecipitationStats r1 data noDataValue
        = calculatePrecipitationStats r2 data noDataValue
    ∧ calculateVegetationStats r1 data = calculateVegetationStats r2 data
    ∧ calculatePopulationStats r1 data = calculatePopulationStats r2 data
    ∧ ∃ s1 s2 d, calculateTransitionStats s1 d ≠ calculateTransitionStats s2 d :=
  ⟨rfl, rfl, rfl, rfl,
   ⟨fun _ => 0, fun _ => 1 / 2, [], by
      intro h
      have h' := congrArg TransStats.transitionIntensity h
      simp only [calculateTransitionStats] at h'
      norm_num at h'⟩⟩

lemma lookup_mem_snd (l : List (ℚ × String)) (v : ℚ) (c : String)
    (h : l.lookup v = some c) : c ∈ l.map Prod.snd := by
  induction l with
  | nil => simp [List.lookup] at h
  | cons a t ih =>
      rw [List.lookup] at h
      rcases Bool.eq_false_or_eq_true (v == a.1) with hv | hv <;> rw [hv] at h
      · obtain rfl : a.2 = c := by simpa using h
        exact List.mem_cons_self _ _
      · exact List.mem_cons_of_mem _ (ih h)

lemma landCoverCellColor_mem (v : ℚ) :
    landCoverCellColor v ∈ landCoverColors.map Prod.snd := by
  unfold landCoverCellColor
  cases h : landCoverColors.lookup v with
  | none =>
      show ("#4d4d4d" : String) ∈ landCoverColors.map Prod.snd
      simp [landCoverColors]
  | some c =>
      simp only [Option.getD_some]
      exact lookup_mem_snd landCoverColors v c h

/-- C4: each interpolated cell is the corresponding cell of one of the two
source arrays, and the land-cover branch of `renderTIFFToCanvas` colours
every cell value — table key or not — with a value of the `landCoverColors`
table (missing keys fall back to the key-0 entry), so every pixel of the
composited buffer carries a colour of `landCoverColors`. -/
theorem landCover_composite_colors (rands : ℕ → ℚ) (a b : List ℚ) (p : ℚ)
    (hlen : a.length = b.length) (hne : a ≠ []) :
    (∀ i, i < a.length →
      (interpolateData rands a b p).getD i 0 = a.getD i 0
      ∨ (interpolateData rands a b p).getD i 0 = b.getD i 0)
    ∧ (∀ v : ℚ, landCoverCellColor v ∈ landCoverColors.map Prod.snd)
    ∧ (∀ v : ℚ, landCoverColors.lookup v = none →
        landCoverCellColor v = "#4d4d4d")
    ∧ (∀ c ∈ renderLandCoverColors (interpolateData rands a b p),
        c ∈ landCoverColors.map Prod.snd) := by
  have hne' : a.length ≠ 0 := by
    simpa using fun h => hne (List.length_eq_zero.mp h)
  refine ⟨?_, landCoverCellColor_mem, ?_, ?_⟩
  · intro i hi
    rw [interpolateData_of_ok rands a b p hlen hne']
    rw [List.getD_eq_getElem _ 0 (by simpa using hi)]
    simp only [List.getElem_map, List.getElem_range]
    by_cases heq : a.getD i 0 = b.getD i 0
    · rw [if_pos heq]
      exact Or.inl rfl
    · rw [if_neg heq]
      by_cases hrand : rands i < p
      · rw [if_pos hrand]; exact Or.inr rfl
      · rw [if_neg hrand]; exact Or.inl rfl
  · intro v hv
    unfold landCoverCellColor
    rw [hv]
    rfl
  · intro c hc
    rcases List.mem_map.mp hc with ⟨x, _, rfl⟩
    exact landCoverCellColor_mem x

/-- Witness for C4 at a concrete input (the 2010/2015 frames of the spec's
end-to-end example, reduced to two cells, requested progress 2/5). -/
theorem landCover_composite_colors_witness :
    ([(7 : ℚ), 13].length = [(8 : ℚ), 13].length ∧ [(7 : ℚ), 13] ≠ [])
    ∧ ((interpolateData (fun _ => 0) [(7 : ℚ), 13] [(8 : ℚ), 13] (2 / 5)).getD 0 0
          = [(7 : ℚ), 13].getD 0 0
        ∨ (interpolateData (fun _ => 0) [(7 : ℚ), 13] [(8 : ℚ), 13] (2 / 5)).getD 0 0
          = [(8 : ℚ), 13].getD 0 0)
    ∧ landCoverCellColor 5 ∈ landCoverColors.map Prod.snd := by
  have h := landCover_composite_colors (fun _ => 0) [(7 : ℚ), 13] [(8 : ℚ), 13]
    (2 / 5) rfl (by decide)
  exact ⟨⟨rfl, by decide⟩, h.1 0 (by decide), h.2.1 5⟩

lemma continuousNormalized_bounds (v vmin vmax : ℚ) :
    0 ≤ continuousNormalized v vmin vmax
    ∧ continuousNormalized v vmin vmax ≤ 1 := by
  unfold continuousNormalized
  exact ⟨le_max_left 0 _, max_le zero_le_one (min_le_left 1 _)⟩

lemma scaleIndex_mono (vmin vmax v1 v2 : ℚ) (n : ℕ) (hn : 1 ≤ n)
    (h : vmin < vmax) (hv : v1 ≤ v2) :
    scaleIndex v1 vmin vmax n ≤ scaleIndex v2 vmin vmax n := by
  unfold scaleIndex continuousNormalized
  have hd : vmax - vmin ≠ 0 := ne_of_gt (sub_pos.mpr h)
  rw [if_neg hd]
  apply Int.floor_le_floor
  apply mul_le_mul_of_nonneg_right
  · exact max_le_max le_rfl (min_le_min le_rfl
      ((div_le_div_iff_of_pos_right (sub_pos.mpr h)).mpr (sub_le_sub_right hv vmin)))
  · have : (1 : ℚ) ≤ n := by exact_mod_cast hn
    linarith

lemma scaleIndex_bounds (v vmin vmax : ℚ) (n : ℕ) (hn : 1 ≤ n) :
    0 ≤ scaleIndex v vmin vmax n ∧ scaleIndex v vmin vmax n ≤ (n : ℤ) - 1 := by
  unfold scaleIndex
  obtain ⟨h0, h1⟩ := continuousNormalized_bounds v vmin vmax
  have hn' : (0 : ℚ) ≤ (n : ℚ) - 1 := by
    have : (1 : ℚ) ≤ n := by exact_mod_cast hn
    linarith
  constructor
  · exact Int.floor_nonneg.mpr (mul_nonneg h0 hn')
  · have hle : continuousNormalized v vmin vmax * ((n : ℚ) - 1) ≤ (n : ℚ) - 1 := by
      calc continuousNormalized v vmin vmax * ((n : ℚ) - 1)
          ≤ 1 * ((n : ℚ) - 1) := mul_le_mul_of_nonneg_right h1 hn'
        _ = (n : ℚ) - 1 := one_mul _
    have hcast : ((n : ℚ) - 1) = (((n : ℤ) - 1 : ℤ) : ℚ) := by push_cast; ring
    calc ⌊continuousNormalized v vmin vmax * ((n : ℚ) - 1)⌋
        ≤ ⌊((n : ℚ) - 1)⌋ := Int.floor_le_floor hle
      _ = (n : ℤ) - 1 := by rw [hcast, Int.floor_intCast]

lemma jsGetStr_isSome (l : List String) (i : ℤ) (h0 : 0 ≤ i)
    (hlt : i < (l.length : ℤ)) : (jsGetStr l i).isSome := by
  unfold jsGetStr
  rw [if_pos h0]
  have ht : i.toNat < l.length := by omega
  rw [List.get?_eq_get ht]
  rfl

/-- C5: for all three continuous colour mappings (which share the scale-index
formula and have scales of equal length 9): with `min < max` the scale index
is monotonically non-decreasing in the value; the index always lies within
`[0, scale.length - 1]`; and with `max == min` each of the three functions
still returns a defined colour (the `|| 1` denominator guard). -/
theorem continuousColor_scale_props (vmin vmax v v1 v2 : ℚ) :
    (vmin < vmax → v1 ≤ v2 →
      scaleIndex v1 vmin vmax precipitationColorScale.length
        ≤ scaleIndex v2 vmin vmax precipitationColorScale.length)
    ∧ (0 ≤ scaleIndex v vmin vmax precipitationColorScale.length
        ∧ scaleIndex v vmin vmax precipitationColorScale.length
          ≤ (precipitationColorScale.length : ℤ) - 1)
    ∧ vegetationProductivityScale.length = precipitationColorScale.length
    ∧ populationDensityScale.length = precipitationColorScale.length
    ∧ (getPrecipitationColor v vmin vmin).isSome
    ∧ (getVegetationColor v vmin vmin).isSome
    ∧ (getPopulationDensityColor v vmin vmin).isSome := by
  have h9 : precipitationColorScale.length = 9 := rfl
  have hn : 1 ≤ precipitationColorScale.length := by rw [h9]; norm_num
  refine ⟨fun h hv => scaleIndex_mono vmin vmax v1 v2 _ hn h hv,
    scaleIndex_bounds v vmin vmax _ hn, rfl, rfl, ?_, ?_, ?_⟩
  · obtain ⟨hb0, hb1⟩ := scaleIndex_bounds v vmin vmin _ hn
    exact jsGetStr_isSome _ _ hb0 (by omega)
  · unfold getVegetationColor
    split
    · rfl
    · have hn' : 1 ≤ vegetationProductivityScale.length := hn
      obtain ⟨hb0, hb1⟩ := scaleIndex_bounds v vmin vmin _ hn'
      exact jsGetStr_isSome _ _ hb0 (by
        have : (vegetationProductivityScale.length : ℤ) = 9 := rfl
        omega)
  · unfold getPopulationDensityColor
    split
    · rfl
    · have hn' : 1 ≤ populationDensityScale.length := hn
      obtain ⟨hb0, hb1⟩ := scaleIndex_bounds v vmin vmin _ hn'
      exact jsGetStr_isSome _ _ hb0 (by
        have : (populationDensityScale.length : ℤ) = 9 := rfl
        omega)

/-- Witness for C5 at concrete inputs (min 0, max 10, values 2 ≤ 5). -/
theorem continuousColor_scale_props_witness :
    ((0 : ℚ) < 10 ∧ (2 : ℚ) ≤ 5)
    ∧ scaleIndex 2 0 10 precipitationColorScale.length
        ≤ scaleIndex 5 0 10 precipitationColorScale.length
    ∧ (getPrecipitationColor 3 0 0).isSome
    ∧ (getVegetationColor 3 0 0).isSome
    ∧ (getPopulationDensityColor 3 0 0).isSome := by
  have h := continuousColor_scale_props 0 10 3 2 5
  exact ⟨⟨by norm_num, by norm_num⟩, h.1 (by norm_num) (by norm_num),
    h.2.2.2.2.1, h.2.2.2.2.2.1, h.2.2.2.2.2.2⟩

lemma resolveTemporalQuery_brackets (year : ℚ) (ys : List ℚ) (b a : ℚ)
    (hb : b ∈ ys) (hble : b ≤ year) (hbmax : ∀ y ∈ ys, y ≤ year → y ≤ b)
    (ha : a ∈ ys) (hale : year ≤ a) (hamin : ∀ y ∈ ys, year ≤ y → a ≤ y) :
    resolveTemporalQuery year ys =
      ⟨JNum.fin b, JNum.fin a,
       if b = a then JNum.fin 0 else JNum.fin ((year - b) / (a - b))⟩ := by
  by_cases hmem : year ∈ ys
  · have hby : b = year := le_antisymm hble (hbmax year hmem le_rfl)
    have hay : a = year := le_antisymm (hamin year hmem le_rfl) hale
    subst hby
    subst hay
    unfold resolveTemporalQuery
    rw [if_pos hmem, if_pos rfl]
  · have hbfilter : jmaxList (ys.filter (fun y => y ≤ year)) = JNum.fin b := by
      apply jmaxList_eq_fin
      · exact List.mem_filter.mpr ⟨hb, by simp [hble]⟩
      · intro y hy
        have h' := List.mem_filter.mp hy
        exact hbmax y h'.1 (by simpa using h'.2)
    have hafilter : jminList (ys.filter (fun y => year ≤ y)) = JNum.fin a := by
      apply jminList_eq_fin
      · exact List.mem_filter.mpr ⟨ha, by simp [hale]⟩
      · intro y hy
        have h' := List.mem_filter.mp hy
        exact hamin y h'.1 (by simpa using h'.2)
    have hby : b < year := lt_of_le_of_ne hble (fun h => hmem (h ▸ hb))
    have hlt : b < a := lt_of_lt_of_le hby hale
    have hgt : (0 : ℚ) < a - b := sub_pos.mpr hlt
    have hne : a - b ≠ 0 := ne_of_gt hgt
    have hba : b ≠ a := ne_of_lt hlt
    unfold resolveTemporalQuery
    rw [if_neg hmem]
    simp only [hbfilter, hafilter, jsub, jgt0, jdiv]
    rw [if_neg hba]
    simp [hgt, hne]

lemma resolveTemporalQuery_above (year : ℚ) (ys : List ℚ) (b : ℚ)
    (hb : b ∈ ys) (hmax : ∀ y ∈ ys, y ≤ b) (habove : ∀ y ∈ ys, y < year) :
    resolveTemporalQuery year ys =
      ⟨JNum.fin b, JNum.posInf, JNum.fin 0⟩ := by
  have hmem : year ∉ ys := fun h => lt_irrefl year (habove year h)
  have h1 : ys.filter (fun y => y ≤ year) = ys :=
    List.filter_eq_self.mpr (fun y hy => by simp [le_of_lt (habove y hy)])
  have h2 : ys.filter (fun y => year ≤ y) = [] :=
    List.filter_eq_nil_iff.mpr (fun y hy => by simp [not_le.mpr (habove y hy)])
  unfold resolveTemporalQuery
  rw [if_neg hmem]
  simp only [h1, h2, jmaxList_eq_fin ys b hb hmax, jminList, jsub, jgt0, jdiv]
  simp

lemma resolveTemporalQuery_below (year : ℚ) (ys : List ℚ) (a : ℚ)
    (ha : a ∈ ys) (hmin : ∀ y ∈ ys, a ≤ y) (hbelow : ∀ y ∈ ys, year < y) :
    resolveTemporalQuery year ys =
      ⟨JNum.negInf, JNum.fin a, JNum.nan⟩ := by
  have hmem : year ∉ ys := fun h => lt_irrefl year (hbelow year h)
  have h1 : ys.filter (fun y => y ≤ year) = [] :=
    List.filter_eq_nil_iff.mpr (fun y hy => by simp [not_le.mpr (hbelow y hy)])
  have h2 : ys.filter (fun y => year ≤ y) = ys :=
    List.filter_eq_self.mpr (fun y hy => by simp [le_of_lt (hbelow y hy)])
  unfold resolveTemporalQuery
  rw [if_neg hmem]
  simp only [h1, h2, jminList_eq_fin ys a ha hmin, jmaxList, jsub, jgt0, jdiv]
  simp

/-- C6: for a requested year within the available range, the temporal query
resolves to before = greatest available year ≤ requested, after = least
available year ≥ requested, progress = 0 when they agree and
`(requested - before)/(after - before)` otherwise; in particular 2013 against
the population years `[2010, 2015, 2020]` gives before 2010, after 2015,
progress 3/5. -/
theorem temporalQuery_in_range (year : ℚ) (ys : List ℚ) (b a : ℚ)
    (hb : b ∈ ys) (hble : b ≤ year) (hbmax : ∀ y ∈ ys, y ≤ year → y ≤ b)
    (ha : a ∈ ys) (hale : year ≤ a) (hamin : ∀ y ∈ ys, year ≤ y → a ≤ y) :
    resolveTemporalQuery year ys =
      ⟨JNum.fin b, JNum.fin a,
       if b = a then JNum.fin 0 else JNum.fin ((year - b) / (a - b))⟩
    ∧ resolveTemporalQuery 2013 (getAvailableYears "population") =
        ⟨JNum.fin 2010, JNum.fin 2015, JNum.fin (3 / 5)⟩ := by
  refine ⟨resolveTemporalQuery_brackets year ys b a hb hble hbmax ha hale hamin, ?_⟩
  have hys : getAvailableYears "population" = [2010, 2015, 2020] := rfl
  have h := resolveTemporalQuery_brackets 2013 [2010, 2015, 2020] 2010 2015
    (by decide) (by norm_num) (by decide) (by decide) (by norm_num) (by decide)
  rw [hys, h, if_neg (by norm_num)]
  simp only [TemporalQuery.mk.injEq, JNum.fin.injEq]
  norm_num

/-- Witness for C6 at the spec's concrete input. -/
theorem temporalQuery_in_range_witness :
    resolveTemporalQuery 2013 (getAvailableYears "population") =
      ⟨JNum.fin 2010, JNum.fin 2015, JNum.fin (3 / 5)⟩ :=
  (temporalQuery_in_range 2013 [2010, 2015, 2020] 2010 2015
    (by decide) (by norm_num) (by decide) (by decide) (by norm_num)
    (by decide)).2

/-- Counterexample to C1: resolving 2023 against the population years does
not clamp `after` to 2020 — JavaScript's `Math.min` of an empty spread is
`Infinity`, so the resolved record is `(2020, Infinity, 0)` and `after`
differs from the endpoint 2020 the claim names. -/
theorem temporalQuery_2023_after_not_clamped :
    resolveTemporalQuery 2023 (getAvailableYears "population") =
      ⟨JNum.fin 2020, JNum.posInf, JNum.fin 0⟩
    ∧ JNum.posInf ≠ JNum.fin 2020 := by
  constructor
  · exact resolveTemporalQuery_above 2023 (getAvailableYears "population") 2020
      (by decide) (by decide) (by decide)
  · exact fun h => JNum.noConfusion h

/-- C1 as amended: for a requested year strictly above the range, `before`
clamps to the greatest available year and `progress = 0`, but `after` is
`Infinity` (Math.min of an empty spread), not the endpoint; for a year
strictly below the range, `after` clamps to the least available year but
`before` is `-Infinity` and `progress` is `NaN`; in particular 2023 against
the population years resolves to `(2020, Infinity, 0)`. -/
theorem temporalQuery_outside_range (year : ℚ) (ys : List ℚ) (b a : ℚ) :
    ((b ∈ ys ∧ (∀ y ∈ ys, y ≤ b) ∧ (∀ y ∈ ys, y < year)) →
      resolveTemporalQuery year ys = ⟨JNum.fin b, JNum.posInf, JNum.fin 0⟩)
    ∧ ((a ∈ ys ∧ (∀ y ∈ ys, a ≤ y) ∧ (∀ y ∈ ys, year < y)) →
      resolveTemporalQuery year ys = ⟨JNum.negInf, JNum.fin a, JNum.nan⟩)
    ∧ resolveTemporalQuery 2023 (getAvailableYears "population") =
        ⟨JNum.fin 2020, JNum.posInf, JNum.fin 0⟩ := by
  refine ⟨fun h => resolveTemporalQuery_above year ys b h.1 h.2.1 h.2.2,
    fun h => resolveTemporalQuery_below year ys a h.1 h.2.1 h.2.2, ?_⟩
  exact resolveTemporalQuery_above 2023 (getAvailableYears "population") 2020
    (by decide) (by decide) (by decide)

/-- Witness for C1's amended statement at concrete years on both sides of
the range. -/
theorem temporalQuery_outside_range_witness :
    resolveTemporalQuery 2005 [2010, 2015, 2020] =
      ⟨JNum.negInf, JNum.fin 2010, JNum.nan⟩
    ∧ resolveTemporalQuery 2023 (getAvailableYears "population") =
        ⟨JNum.fin 2020, JNum.posInf, JNum.fin 0⟩ := by
  have h := temporalQuery_outside_range 2005 [2010, 2015, 2020] 2020 2010
  exact ⟨h.2.1 ⟨by decide, by decide, by decide⟩, h.2.2⟩
